import Mathlib

/-!
Verification of the canvas-engine core: the fixed-timestep update loop
(`Engine.update`), the event queue/dispatch model (`EventHandler`), the scene
disposal sweep, `Engine.start`, and the `Actor` animation/draw operations.

Numbers are modelled as exact rationals (`ℚ`).  The one place where the
binary64 representation is semantically relevant is the engine constant
`targetTickDurationMilliseconds = 1000 / 60`: the JavaScript value is the
IEEE-754 double nearest to 50/3, which is strictly greater than 50/3, and the
tick count of a frame depends on which side of 50/3 the constant lies (with
the exact rational 50/3 a 50 ms frame would run 3 ticks; with the double it
runs 2).  We therefore model that constant by the exact rational value of the
double, 4691249611844267 / 2^48.  The loop's own subtractions are modelled
exactly; over the handful of iterations relevant here the accumulated
float rounding is below one ulp and never changes a loop-condition outcome.
-/

namespace CanvasEngine

/-! ## EventHandler (src/util/EventHandler.ts)

Callbacks are identified by natural-number ids (JS compares callbacks by
reference identity); a callback registry per event type is a list of ids in
registration order.  A queued payload is a JS object with a `type` field plus
the data fields relevant to the claims (`button`, `key`, coordinates). -/

/-- The closed set of engine event types, in the declaration (= JS object key
iteration) order of `callbackRegistry` / `queuedEventPayloads`. -/
inductive EvType
  | onmousedown
  | whilemousedown
  | onmouseup
  | onmousemove
  | onkeydown
  | whilekeydown
  | onkeyup
  | onresize
  | ontick
  | onrender
deriving DecidableEq

/-- An event payload object: its `type` tag together with the data fields the
claims inspect.  `x`, `y` stand for the remaining numeric data carried by the
object (coordinates, sizes, delta time, interpolation factor). -/
structure Payload where
  type : EvType
  button : ℕ
  key : String
  x : ℚ
  y : ℚ
deriving DecidableEq

/-- The `queuedEventPayloads` record: one payload queue per event type. -/
structure Queues where
  onmousedown : List Payload
  whilemousedown : List Payload
  onmouseup : List Payload
  onmousemove : List Payload
  onkeydown : List Payload
  whilekeydown : List Payload
  onkeyup : List Payload
  onresize : List Payload
  ontick : List Payload
  onrender : List Payload
deriving DecidableEq

/-- The `callbackRegistry` record: one list of registered callbacks (by id)
per event type, in registration order. -/
structure Registry where
  onmousedown : List ℕ
  whilemousedown : List ℕ
  onmouseup : List ℕ
  onmousemove : List ℕ
  onkeydown : List ℕ
  whilekeydown : List ℕ
  onkeyup : List ℕ
  onresize : List ℕ
  ontick : List ℕ
  onrender : List ℕ
deriving DecidableEq

/-- Reading `queuedEventPayloads[type]`. -/
def Queues.get (q : Queues) : EvType → List Payload
  | .onmousedown => q.onmousedown
  | .whilemousedown => q.whilemousedown
  | .onmouseup => q.onmouseup
  | .onmousemove => q.onmousemove
  | .onkeydown => q.onkeydown
  | .whilekeydown => q.whilekeydown
  | .onkeyup => q.onkeyup
  | .onresize => q.onresize
  | .ontick => q.ontick
  | .onrender => q.onrender

/-- Writing `queuedEventPayloads[type] = v` (all other queues unchanged). -/
def Queues.set (q : Queues) : EvType → List Payload → Queues
  | .onmousedown, v => ⟨v, q.whilemousedown, q.onmouseup, q.onmousemove, q.onkeydown, q.whilekeydown, q.onkeyup, q.onresize, q.ontick, q.onrender⟩
  | .whilemousedown, v => ⟨q.onmousedown, v, q.onmouseup, q.onmousemove, q.onkeydown, q.whilekeydown, q.onkeyup, q.onresize, q.ontick, q.onrender⟩
  | .onmouseup, v => ⟨q.onmousedown, q.whilemousedown, v, q.onmousemove, q.onkeydown, q.whilekeydown, q.onkeyup, q.onresize, q.ontick, q.onrender⟩
  | .onmousemove, v => ⟨q.onmousedown, q.whilemousedown, q.onmouseup, v, q.onkeydown, q.whilekeydown, q.onkeyup, q.onresize, q.ontick, q.onrender⟩
  | .onkeydown, v => ⟨q.onmousedown, q.whilemousedown, q.onmouseup, q.onmousemove, v, q.whilekeydown, q.onkeyup, q.onresize, q.ontick, q.onrender⟩
  | .whilekeydown, v => ⟨q.onmousedown, q.whilemousedown, q.onmouseup, q.onmousemove, q.onkeydown, v, q.onkeyup, q.onresize, q.ontick, q.onrender⟩
  | .onkeyup, v => ⟨q.onmousedown, q.whilemousedown, q.onmouseup, q.onmousemove, q.onkeydown, q.whilekeydown, v, q.onresize, q.ontick, q.onrender⟩
  | .onresize, v => ⟨q.onmousedown, q.whilemousedown, q.onmouseup, q.onmousemove, q.onkeydown, q.whilekeydown, q.onkeyup, v, q.ontick, q.onrender⟩
  | .ontick, v => ⟨q.onmousedown, q.whilemousedown, q.onmouseup, q.onmousemove, q.onkeydown, q.whilekeydown, q.onkeyup, q.onresize, v, q.onrender⟩
  | .onrender, v => ⟨q.onmousedown, q.whilemousedown, q.onmouseup, q.onmousemove, q.onkeydown, q.whilekeydown, q.onkeyup, q.onresize, q.ontick, v⟩

/-- Reading `callbackRegistry[type]`. -/
def Registry.get (r : Registry) : EvType → List ℕ
  | .onmousedown => r.onmousedown
  | .whilemousedown => r.whilemousedown
  | .onmouseup => r.onmouseup
  | .onmousemove => r.onmousemove
  | .onkeydown => r.onkeydown
  | .whilekeydown => r.whilekeydown
  | .onkeyup => r.onkeyup
  | .onresize => r.onresize
  | .ontick => r.ontick
  | .onrender => r.onrender

/-- The spread `{...payload, type: t}`: copy all fields, override `type`. -/
def retype (p : Payload) (t : EvType) : Payload :=
  ⟨t, p.button, p.key, p.x, p.y⟩

/-- `EventHandler.queueEvent(type, payload)`.  `pauseCb` is the Boolean the
installed `enginePauseStateCallback` returns at the moment of the call; the
guard `if (!this.enginePauseStateCallback()) return;` makes the call a no-op
when it returns `false` (the spec reads `false` as "engine not running").
Otherwise the payload is pushed onto its type's queue, with the special
level-trigger logic for the mouse/key down and up events. -/
def queueEvent (pauseCb : Bool) (t : EvType) (p : Payload) (q : Queues) : Queues :=
  if !pauseCb then q
  else
    match t with
    | .onmousedown =>
      let q1 := q.set .onmousedown (q.get .onmousedown ++ [p])
      q1.set .whilemousedown (q1.get .whilemousedown ++ [retype p .whilemousedown])
    | .onmouseup =>
      let q1 := q.set .onmouseup (q.get .onmouseup ++ [p])
      q1.set .whilemousedown ((q1.get .whilemousedown).filter (fun e => e.button != p.button))
    | .onkeydown =>
      let q1 := q.set .onkeydown (q.get .onkeydown ++ [p])
      q1.set .whilekeydown (q1.get .whilekeydown ++ [retype p .whilekeydown])
    | .onkeyup =>
      let q1 := q.set .onkeyup (q.get .onkeyup ++ [p])
      q1.set .whilekeydown ((q1.get .whilekeydown).filter (fun e => e.key != p.key))
    | _ => q.set t (q.get t ++ [p])

/-- The key-iteration order of the `for (const type in this.queuedEventPayloads)`
loop: JS object string keys iterate in insertion (= declaration) order. -/
def evTypeKeys : List EvType :=
  [.onmousedown, .whilemousedown, .onmouseup, .onmousemove, .onkeydown,
   .whilekeydown, .onkeyup, .onresize, .ontick, .onrender]

/-- The queue-pruning loop at the end of `dispatchQueue`, verbatim:
`for (let i = 0; i < queuedPayloads.length; i++) { if (level) continue; queuedPayloads.splice(i, 1); }`.
`fuel` bounds the iteration count; it is called with the initial array length,
which the loop can never exceed (each iteration increments `i`, and a splice
also shrinks the array, so `i` reaches the current length within
`initial length` iterations). -/
def spliceClearGo (isLevel : Bool) : ℕ → ℕ → List Payload → List Payload
  | 0, _, ps => ps
  | fuel + 1, i, ps =>
    if i < ps.length then
      spliceClearGo isLevel fuel (i + 1) (if isLevel then ps else ps.eraseIdx i)
    else ps

/-- Pruning pass of `dispatchQueue` for one event type's queue. -/
def spliceClear (t : EvType) (ps : List Payload) : List Payload :=
  spliceClearGo (decide (t = EvType.whilemousedown) || decide (t = EvType.whilekeydown))
    ps.length 0 ps

/-- One type's delivery in `dispatchQueue`:
`registeredCallbacks.forEach((callback) => queuedPayloads.forEach((payload) => callback(payload)))`.
The result records the sequence of `callback(payload)` invocations performed
(callbacks outer loop = registration order, payloads inner loop = enqueue
order), paired with the queue left after the pruning loop. -/
def dispatchType (reg : List ℕ) (t : EvType) (ps : List Payload) :
    List (EvType × ℕ × Payload) × List Payload :=
  (reg.flatMap (fun cb => ps.map (fun p => (t, cb, p))), spliceClear t ps)

/-- `EventHandler.dispatchQueue()`: for every event type in key order, deliver
every queued payload to every registered callback, then run the pruning loop
on that type's queue.  Returns the full invocation trace and the final queues. -/
def dispatchQueue (r : Registry) (q : Queues) : List (EvType × ℕ × Payload) × Queues :=
  evTypeKeys.foldl
    (fun acc t =>
      let d := dispatchType (r.get t) t (acc.2.get t)
      (acc.1 ++ d.1, acc.2.set t d.2))
    ([], q)

/-- `unregisterEventCallback`'s removal, i.e. JS
`list.splice(list.indexOf(callback), 1)`.  `jsIndexOf` returns the first
index of the element or `-1` when absent. -/
def jsIndexOf : List ℕ → ℕ → ℤ
  | [], _ => -1
  | x :: xs, y =>
    if x = y then 0
    else
      let r := jsIndexOf xs y
      if r < 0 then -1 else r + 1

/-- JS `Array.prototype.splice(start, 1)`: a negative `start` counts from the
end (clamped at 0), a `start` past the end removes nothing. -/
def jsSpliceRemoveOne (xs : List ℕ) (start : ℤ) : List ℕ :=
  let s : ℕ := if start < 0 then (xs.length + start).toNat else min start.toNat xs.length
  xs.take s ++ xs.drop (s + 1)

/-- `EventHandler.unregisterEventCallback(type, callback)` acting on the
callback list registered for `type`. -/
def unregisterEventCallback (callbacks : List ℕ) (cb : ℕ) : List ℕ :=
  jsSpliceRemoveOne callbacks (jsIndexOf callbacks cb)

/-! ## Engine fixed-timestep loop (Engine.update) -/

/-- `TARGET_FPS = 60`. -/
def TARGET_FPS : ℚ := 60

/-- `MAX_UPDATES_PER_FRAME = 240`. -/
def MAX_UPDATES_PER_FRAME : ℕ := 240

/-- `targetTickDurationMilliseconds = 1000 / TARGET_FPS`, as the JavaScript
engine actually stores it: the IEEE-754 binary64 value nearest to 50/3, which
is `4691249611844267 * 2^(-48)` (strictly greater than 50/3; the fraction
50/3 = 16.6666... rounds up because the first discarded mantissa bit is 1 and
the tail is nonzero).  The exact rational 50/3 would make a 50 ms frame run
3 ticks, while the engine's double runs 2, so the rounding is semantically
load-bearing and is modelled. -/
def targetTickDurationMilliseconds : ℚ := 4691249611844267 / 281474976710656

/-- The `while (this.lag >= this.targetTickDurationMilliseconds && !this.isPaused)`
loop of `Engine.update`, with the per-tick work (event queueing, scene ticks,
dispatch) abstracted away and only the pacing state kept.  State: remaining
`fuel` (called with `maxU`, which the loop can never exceed because
`cycleUpdateCount` starts at 0, increments every iteration and breaks at
`maxU`), current `lag`, and `count` = `cycleUpdateCount`.  Returns the final
`(cycleUpdateCount, lag, breakerFired)`. -/
def tickLoopGo (T : ℚ) (paused : Bool) (maxU : ℕ) : ℕ → ℚ → ℕ → ℕ × ℚ × Bool
  | 0, lag, count => (count, lag, false)
  | fuel + 1, lag, count =>
    if lag < T ∨ paused then (count, lag, false)
    else
      let lag2 := lag - T
      let count2 := count + 1
      if maxU ≤ count2 then (count2, 0, true)
      else tickLoopGo T paused maxU fuel lag2 count2

/-- The pacing-relevant outcome of one `Engine.update` invocation. -/
structure FrameResult where
  ticks : ℕ
  lagAfter : ℚ
  interp : ℚ
  breakerFired : Bool
deriving DecidableEq

/-- One invocation of `Engine.update` at the pacing level.  If the engine is
not preloaded it calls `render(0)` and returns without touching `lag`.
Otherwise `lag += delta`, the tick loop runs (skipped entirely while paused),
and `render(this.lag / this.targetTickDurationMilliseconds)` is called with
the remaining lag fraction. -/
def engineUpdateFrame (preloaded paused : Bool) (lagBefore delta : ℚ) : FrameResult :=
  if !preloaded then ⟨0, lagBefore, 0, false⟩
  else
    let lag0 := lagBefore + delta
    let r := tickLoopGo targetTickDurationMilliseconds paused MAX_UPDATES_PER_FRAME
      MAX_UPDATES_PER_FRAME lag0 0
    ⟨r.1, r.2.1, r.2.1 / targetTickDurationMilliseconds, r.2.2⟩

/-! ## Scene disposal sweep (end of Engine.update) -/

/-- The scene state the sweep and the render pass read. -/
structure SceneM where
  id : String
  isQueuedForDisposal : Bool
  isRenderEnabled : Bool
deriving DecidableEq

/-- A JavaScript value as far as truthiness is concerned. -/
inductive JsVal
  | jsBool (b : Bool)
  | jsUndefined
deriving DecidableEq

/-- JS truthiness of the modelled values. -/
def JsVal.truthy : JsVal → Bool
  | .jsBool b => b
  | .jsUndefined => false

/-- The value of the call expression `this.removeScene(scene)`:
`removeScene` is an arrow function with a braced body and no `return`
(`{ this.scenes.delete(scene.ID); }`), so the call evaluates to `undefined`.
Its side effect deletes from the old `scenes` Map, which the very next
assignment replaces wholesale with a Map rebuilt from the snapshot
`Array.from(this.scenes.entries())` taken before any deletion, so the side
effect never reaches the final registry. -/
def removeSceneResult : JsVal := .jsUndefined

/-- Short-circuit JS `a && b`: returns `a` if `a` is falsy, else `b`. -/
def jsAnd (a : JsVal) (b : Unit → JsVal) : JsVal :=
  if a.truthy then b () else a

/-- The post-render sweep
`this.scenes = new Map(Array.from(this.scenes.entries()).filter(([key, scene]) => !(scene.isQueuedForDisposal && this.removeScene(scene))))`
acting on the registry in insertion order. -/
def disposalSweep (scenes : List SceneM) : List SceneM :=
  scenes.filter (fun s =>
    !(jsAnd (.jsBool s.isQueuedForDisposal) (fun _ => removeSceneResult)).truthy)

/-- The render pass over the registry:
`Array.from(this.scenes.values()).filter(scene => scene.isRenderEnabled).forEach(scene => scene.render(interpolationFactor))`. -/
def renderPass (scenes : List SceneM) : List SceneM :=
  scenes.filter (fun s => s.isRenderEnabled)

/-! ## Engine.start -/

/-- Modelled from the spec: `assert` from `util/asserts` (the module is not
under src/) reports a thrown error carrying the given descriptive message
when the condition is false, per the spec's error taxonomy ("programming-
contract violations ... reported immediately via a thrown/reported error
carrying a descriptive message"). -/
def assertThrows (cond : Bool) (msg : String) : Except String Unit :=
  if cond then .ok () else .error msg

/-- The engine lifecycle flags `Engine.start` reads and writes. -/
structure EngineFlags where
  isStarted : Bool
  isPreloaded : Bool
  isPaused : Bool
deriving DecidableEq

/-- `Engine.start()` at the lifecycle-flag level: it first runs
`assert(!this.isStarted, "Engine has already been started.")`; on success it
(after preload) sets `isPreloaded = true`, `isStarted = true`, and
`updatePauseState(false)`. -/
def engineStart (st : EngineFlags) : Except String EngineFlags :=
  match assertThrows (!st.isStarted) "Engine has already been started." with
  | .error e => .error e
  | .ok _ => .ok ⟨true, true, false⟩

/-! ## Actor (src/Objects/Actor.ts) -/

/-- Modelled from the spec: the 2-D `Vector` value type of `math/vector`
(the module is not under src/), with componentwise arithmetic; every
operation returns a new instance. -/
structure Vec where
  x : ℚ
  y : ℚ
deriving DecidableEq

namespace Vec2

/-- Modelled from the spec: componentwise vector addition. -/
def add (a b : Vec) : Vec := ⟨a.x + b.x, a.y + b.y⟩

/-- Modelled from the spec: componentwise vector subtraction. -/
def sub (a b : Vec) : Vec := ⟨a.x - b.x, a.y - b.y⟩

/-- Modelled from the spec: scalar multiplication of a vector. -/
def mult (a : Vec) (s : ℚ) : Vec := ⟨a.x * s, a.y * s⟩

end Vec2

/-- The actor state `performDrawCalls` can read or write: `pos`, `vel`,
`size`, the `lastState` snapshot and the `doDraw` flag. -/
structure ActorState where
  pos : Vec
  vel : Vec
  size : Vec
  lastPos : Vec
  lastVel : Vec
  doDraw : Bool
deriving DecidableEq

/-- `Actor.performDrawCalls(ctx, interp)` restricted to actor state: a no-op
when `doDraw` is false; otherwise it overwrites `pos` with
`add(this.lastState.pos, mult(sub(this.pos, this.lastState.pos), interp))`
before issuing the (state-preserving) canvas draw calls and the user draw
callback. -/
def performDrawCalls (interp : ℚ) (a : ActorState) : ActorState :=
  if !a.doDraw then a
  else
    ⟨Vec2.add a.lastPos (Vec2.mult (Vec2.sub a.pos a.lastPos) interp),
     a.vel, a.size, a.lastPos, a.lastVel, a.doDraw⟩

/-- The animation bookkeeping `updateAnimation` mutates. -/
structure AnimState where
  deltaSum : ℚ
  animationFrame : ℕ
deriving DecidableEq

/-- `Actor.updateAnimation(delta)` for an active animation whose frame
durations are `frames` (we record each keyframe by its duration; the claims
never read the sprite `index`).  Returns early when no animation is active;
accessing `frames[animationFrame]` out of bounds would throw in JS and is
modelled as `none`.  `deltaSum += delta` happens unconditionally; when the
new sum reaches the current frame's duration, that duration is subtracted
and the frame index advances modulo the frame count. -/
def updateAnimation (hasAnimation : Bool) (frames : List ℚ) (delta : ℚ)
    (st : AnimState) : Option AnimState :=
  if !hasAnimation then some st
  else
    match frames[st.animationFrame]? with
    | none => none
    | some dur =>
      if st.deltaSum + delta ≥ dur then
        some ⟨st.deltaSum + delta - dur, (st.animationFrame + 1) % frames.length⟩
      else
        some ⟨st.deltaSum + delta, st.animationFrame⟩

/-- Repeated `updateAnimation` calls with delta 40 ms on a 3-frame animation
of 100 ms per frame, starting from a fresh animation state. -/
def animIterate : ℕ → Option AnimState
  | 0 => some ⟨0, 0⟩
  | k + 1 =>
    match animIterate k with
    | none => none
    | some st => updateAnimation true [100, 100, 100] 40 st

/-- A concrete actor used to instantiate the draw-interpolation theorem. -/
def actorW : ActorState :=
  ⟨⟨10, 20⟩, ⟨1, 2⟩, ⟨3, 4⟩, ⟨4, 8⟩, ⟨0, 0⟩, true⟩

/-! ## Helper lemmas -/

lemma floor_div_eq_zero {T lag : ℚ} (hT : 0 < T) (h0 : 0 ≤ lag) (h : lag < T) :
    ⌊lag / T⌋ = 0 := by
  rw [Int.floor_eq_zero_iff, Set.mem_Ico]
  exact ⟨by positivity, (div_lt_one hT).mpr h⟩

lemma one_le_floor_div {T lag : ℚ} (hT : 0 < T) (h : T ≤ lag) : 1 ≤ ⌊lag / T⌋ := by
  rw [Int.le_floor]
  push_cast
  exact (one_le_div hT).mpr h

lemma floor_div_sub_self (T lag : ℚ) (hT : T ≠ 0) :
    ⌊(lag - T) / T⌋ = ⌊lag / T⌋ - 1 := by
  rw [sub_div, div_self hT, Int.floor_sub_one]

/-- While paused, the tick loop of `Engine.update` performs no iterations at
all: it returns the lag accumulator and update counter untouched. -/
lemma tickLoopGo_paused (T : ℚ) (maxU : ℕ) :
    ∀ (fuel : ℕ) (lag : ℚ) (count : ℕ),
      tickLoopGo T true maxU fuel lag count = (count, lag, false) := by
  intro fuel lag count
  cases fuel with
  | zero => rfl
  | succ fuel => simp [tickLoopGo]

/-- The tick loop without breaker intervention: when the number of owed ticks
`⌊lag / T⌋` keeps the counter below `maxUpdatesPerFrame`, the loop executes
exactly that many ticks and leaves `lag mod T` in the accumulator. -/
lemma tickLoopGo_normal (T : ℚ) (hT : 0 < T) (maxU : ℕ) :
    ∀ (fuel : ℕ) (lag : ℚ) (count : ℕ), 0 ≤ lag →
      count + (⌊lag / T⌋).toNat < maxU → (⌊lag / T⌋).toNat ≤ fuel →
      tickLoopGo T false maxU fuel lag count
        = (count + (⌊lag / T⌋).toNat, lag - ((⌊lag / T⌋).toNat : ℚ) * T, false) := by
  intro fuel
  induction fuel with
  | zero =>
    intro lag count h0 hcnt hfuel
    have hn : (⌊lag / T⌋).toNat = 0 := Nat.le_zero.mp hfuel
    rw [tickLoopGo, hn]
    norm_num
  | succ fuel ih =>
    intro lag count h0 hcnt hfuel
    by_cases hlt : lag < T
    · have hn : (⌊lag / T⌋).toNat = 0 := by
        rw [floor_div_eq_zero hT h0 hlt]
        rfl
      rw [tickLoopGo]
      rw [hn]
      simp [hlt]
    · push_neg at hlt
      have h1 : 1 ≤ ⌊lag / T⌋ := one_le_floor_div hT hlt
      have hfl : ⌊(lag - T) / T⌋ = ⌊lag / T⌋ - 1 := floor_div_sub_self T lag hT.ne'
      have hnz : 1 ≤ (⌊lag / T⌋).toNat := by omega
      have hnext : (⌊(lag - T) / T⌋).toNat = (⌊lag / T⌋).toNat - 1 := by omega
      have hbrk : ¬ maxU ≤ count + 1 := by omega
      rw [tickLoopGo]
      rw [if_neg (by simp [not_lt.mpr hlt])]
      simp only []
      rw [if_neg hbrk]
      rw [ih (lag - T) (count + 1) (by linarith) (by omega) (by omega)]
      rw [hnext]
      simp only [Prod.mk.injEq]
      refine ⟨by omega, ?_, trivial⟩
      rw [Nat.cast_sub hnz]
      push_cast
      ring

/-- The tick loop with breaker intervention: when the owed ticks would reach
`maxUpdatesPerFrame`, the loop stops after exactly `maxUpdatesPerFrame`
iterations, forcing the lag accumulator to 0. -/
lemma tickLoopGo_breaker (T : ℚ) (hT : 0 < T) (maxU : ℕ) :
    ∀ (fuel : ℕ) (lag : ℚ) (count : ℕ), 0 ≤ lag →
      count < maxU → maxU ≤ count + (⌊lag / T⌋).toNat → maxU ≤ count + fuel →
      tickLoopGo T false maxU fuel lag count = (maxU, 0, true) := by
  intro fuel
  induction fuel with
  | zero =>
    intro lag count h0 hcnt hflr hfuel
    omega
  | succ fuel ih =>
    intro lag count h0 hcnt hflr hfuel
    have h1 : 1 ≤ ⌊lag / T⌋ := by
      by_contra hco
      have hz : ⌊lag / T⌋ ≤ 0 := by omega
      omega
    have hge : T ≤ lag := by
      have := Int.le_floor.mp h1
      push_cast at this
      exact (one_le_div hT).mp this
    have hfl : ⌊(lag - T) / T⌋ = ⌊lag / T⌋ - 1 := floor_div_sub_self T lag hT.ne'
    rw [tickLoopGo]
    rw [if_neg (by simp [not_lt.mpr hge])]
    simp only []
    by_cases hbrk : maxU ≤ count + 1
    · rw [if_pos hbrk]
      have : count + 1 = maxU := by omega
      rw [this]
    · rw [if_neg hbrk]
      exact ih (lag - T) (count + 1) (by linarith) (by omega) (by omega) (by omega)

/-- The floor of `50 / targetTickDurationMilliseconds` is 2 (not 3): the
engine's binary64 tick duration exceeds 50/3, so a 50 ms frame owes 2 ticks. -/
lemma floor_fifty_div_target :
    ⌊(50 : ℚ) / targetTickDurationMilliseconds⌋ = 2 := by
  rw [Int.floor_eq_iff]
  rw [targetTickDurationMilliseconds]
  norm_num

lemma target_pos : (0 : ℚ) < targetTickDurationMilliseconds := by
  rw [targetTickDurationMilliseconds]
  norm_num

/-- Closed form of the repeated 40 ms advance over three 100 ms frames:
after `k` calls the accumulated remainder is `40k mod 100` and the frame
index is `(40k div 100) mod 3`, i.e. `(total_elapsed // 100) % 3`. -/
lemma animIterate_closed (k : ℕ) :
    animIterate k = some ⟨((40 * k % 100 : ℕ) : ℚ), 40 * k / 100 % 3⟩ := by
  induction k with
  | zero =>
    rw [animIterate]
    norm_num
  | succ k ih =>
    rw [animIterate, ih]
    have hr : 40 * k % 100 < 100 := Nat.mod_lt _ (by norm_num)
    have hdur : ([100, 100, 100] : List ℚ)[40 * k / 100 % 3]? = some 100 := by
      have h3 : 40 * k / 100 % 3 = 0 ∨ 40 * k / 100 % 3 = 1 ∨ 40 * k / 100 % 3 = 2 := by
        omega
      rcases h3 with h | h | h <;> rw [h] <;> rfl
    simp only [updateAnimation, Bool.not_true, hdur, List.length_cons, List.length_nil]
    by_cases hc : 60 ≤ 40 * k % 100
    · have hge : (((40 * k % 100 : ℕ) : ℚ)) + 40 ≥ 100 := by
        have h60 : (60 : ℚ) ≤ ((40 * k % 100 : ℕ) : ℚ) := by exact_mod_cast hc
        linarith
      rw [if_pos hge]
      have h1 : 40 * (k + 1) % 100 = 40 * k % 100 + 40 - 100 := by omega
      have h2 : 40 * (k + 1) / 100 % 3 = (40 * k / 100 % 3 + 1) % (0 + 1 + 1 + 1) := by
        omega
      simp only [Bool.false_eq_true, if_false, Option.some.injEq, AnimState.mk.injEq]
      constructor
      · rw [h1, Nat.cast_sub (by omega : 100 ≤ 40 * k % 100 + 40)]
        push_cast
        ring
      · omega
    · push_neg at hc
      have hlt : ¬ ((((40 * k % 100 : ℕ) : ℚ)) + 40 ≥ 100) := by
        have h60 : ((40 * k % 100 : ℕ) : ℚ) < 60 := by exact_mod_cast hc
        linarith
      rw [if_neg hlt]
      have h1 : 40 * (k + 1) % 100 = 40 * k % 100 + 40 := by omega
      have h2 : 40 * (k + 1) / 100 % 3 = 40 * k / 100 % 3 := by omega
      simp only [Bool.false_eq_true, if_false, Option.some.injEq, AnimState.mk.injEq]
      constructor
      · rw [h1]
        push_cast
        ring
      · omega

/-! ## Claim theorems -/

/-- Claim C1: in one `Engine.update` invocation with the engine preloaded and
not paused, the tick count equals `⌊(lag_before + d) / T⌋` and the remaining
lag is `(lag_before + d) mod T`, unless the breaker caps it, in which case the
lag is forced to 0 and the tick count is `maxUpdatesPerFrame`; in particular,
with the engine's tick duration `1000 / 60` (as a binary64 value), a 50 ms
frame from `lag_before = 0` runs exactly 2 ticks and leaves approximately
16.67 ms of lag. -/
theorem c1_tick_count_determinism (T : ℚ) (hT : 0 < T) (maxU : ℕ)
    (lagBefore d : ℚ) (h0 : 0 ≤ lagBefore + d) :
    (((⌊(lagBefore + d) / T⌋).toNat < maxU →
        tickLoopGo T false maxU maxU (lagBefore + d) 0
          = ((⌊(lagBefore + d) / T⌋).toNat,
             lagBefore + d - ((⌊(lagBefore + d) / T⌋).toNat : ℚ) * T, false)) ∧
      (0 < maxU → maxU ≤ (⌊(lagBefore + d) / T⌋).toNat →
        tickLoopGo T false maxU maxU (lagBefore + d) 0 = (maxU, 0, true))) ∧
    (engineUpdateFrame true false 0 50).ticks = 2 ∧
    (engineUpdateFrame true false 0 50).lagAfter
      = 50 - 2 * targetTickDurationMilliseconds ∧
    1666 / 100 < (engineUpdateFrame true false 0 50).lagAfter ∧
    (engineUpdateFrame true false 0 50).lagAfter < 1667 / 100 := by
  have hsc :
      tickLoopGo targetTickDurationMilliseconds false MAX_UPDATES_PER_FRAME
          MAX_UPDATES_PER_FRAME (50 : ℚ) 0
        = (2, 50 - 2 * targetTickDurationMilliseconds, false) := by
    have h := tickLoopGo_normal targetTickDurationMilliseconds target_pos
      MAX_UPDATES_PER_FRAME MAX_UPDATES_PER_FRAME 50 0 (by norm_num)
      (by rw [floor_fifty_div_target]; norm_num [MAX_UPDATES_PER_FRAME])
      (by rw [floor_fifty_div_target]; norm_num [MAX_UPDATES_PER_FRAME])
    rw [floor_fifty_div_target] at h
    simp only [Int.toNat_ofNat, Nat.cast_ofNat, zero_add] at h
    exact h
  refine ⟨⟨?_, ?_⟩, ?_, ?_, ?_, ?_⟩
  · intro hlt
    have h := tickLoopGo_normal T hT maxU maxU (lagBefore + d) 0 h0
      (by omega) (by omega)
    rw [h]
    norm_num
  · intro hmpos hge
    exact tickLoopGo_breaker T hT maxU maxU (lagBefore + d) 0 h0 hmpos
      (by omega) (by omega)
  · simp only [engineUpdateFrame, Bool.not_true, Bool.false_eq_true, if_false]
    norm_num [hsc]
  · simp only [engineUpdateFrame, Bool.not_true, Bool.false_eq_true, if_false]
    norm_num [hsc]
  · simp only [engineUpdateFrame, Bool.not_true, Bool.false_eq_true, if_false]
    norm_num [hsc]
    rw [targetTickDurationMilliseconds]
    norm_num
  · simp only [engineUpdateFrame, Bool.not_true, Bool.false_eq_true, if_false]
    norm_num [hsc]
    rw [targetTickDurationMilliseconds]
    norm_num

/-- Witness for C1: at `T = 10`, `maxUpdatesPerFrame = 3`, `lag_before = 0`,
`d = 25` the hypotheses hold (the frame owes `⌊25 / 10⌋ = 2 < 3` ticks) and
the loop performs 2 ticks leaving 5 ms of lag. -/
theorem c1_witness :
    ((0 : ℚ) < 10 ∧ (0 : ℚ) ≤ 0 + 25 ∧ (⌊((0 : ℚ) + 25) / 10⌋).toNat < 3) ∧
    tickLoopGo 10 false 3 3 ((0 : ℚ) + 25) 0
      = ((⌊((0 : ℚ) + 25) / 10⌋).toNat,
         (0 : ℚ) + 25 - ((⌊((0 : ℚ) + 25) / 10⌋).toNat : ℚ) * 10, false) := by
  have hf : ⌊((0 : ℚ) + 25) / 10⌋ = 2 := by
    rw [Int.floor_eq_iff]
    norm_num
  refine ⟨⟨by norm_num, by norm_num, by rw [hf]; norm_num⟩, ?_⟩
  exact (c1_tick_count_determinism 10 (by norm_num) 3 0 25 (by norm_num)).1.1
    (by rw [hf]; norm_num)

/-- Claim C5 counterexample: a preloaded but paused frame that has
accumulated 100 ms of lag skips the tick loop entirely (so the breaker never
fires) yet passes `100 / targetTickDuration ≈ 6` to `Engine.render`, outside
`[0, 1)`.  This refutes the claim as stated, which conditions only on the
breaker not having fired. -/
theorem c5_counterexample :
    (engineUpdateFrame true true 100 0).breakerFired = false ∧
    1 ≤ (engineUpdateFrame true true 100 0).interp := by
  have h := tickLoopGo_paused targetTickDurationMilliseconds MAX_UPDATES_PER_FRAME
    MAX_UPDATES_PER_FRAME ((100 : ℚ) + 0) 0
  simp only [engineUpdateFrame, Bool.not_true, Bool.false_eq_true, if_false, h]
  refine ⟨trivial, ?_⟩
  rw [targetTickDurationMilliseconds]
  norm_num

/-- Claim C5 (amended): every interpolation factor passed to `Engine.render`
is in `[0, 1)` whenever the engine is NOT PAUSED for that frame (and the
accumulated lag is nonnegative) — and then regardless of whether the breaker
fired, since the breaker forces the lag to 0.  The original claim's
condition ("whenever the breaker has not fired") is insufficient: a paused
frame never fires the breaker but can pass a factor ≥ 1
(`c5_counterexample`). -/
theorem c5_interpolation_bounds (preloaded : Bool) (lagBefore d : ℚ)
    (h0 : 0 ≤ lagBefore + d) :
    0 ≤ (engineUpdateFrame preloaded false lagBefore d).interp ∧
    (engineUpdateFrame preloaded false lagBefore d).interp < 1 := by
  cases preloaded with
  | false =>
    simp [engineUpdateFrame]
  | true =>
    simp only [engineUpdateFrame, Bool.not_true, Bool.false_eq_true, if_false]
    set T := targetTickDurationMilliseconds with hTdef
    have hT : 0 < T := target_pos
    set lag0 := lagBefore + d with hlag0
    by_cases hn : (⌊lag0 / T⌋).toNat < MAX_UPDATES_PER_FRAME
    · rw [tickLoopGo_normal T hT MAX_UPDATES_PER_FRAME MAX_UPDATES_PER_FRAME lag0 0 h0
        (by omega) (by omega)]
      have hfl0 : (0 : ℤ) ≤ ⌊lag0 / T⌋ := Int.floor_nonneg.mpr (by positivity)
      have hcast : (((⌊lag0 / T⌋).toNat : ℚ)) = ((⌊lag0 / T⌋ : ℤ) : ℚ) := by
        exact_mod_cast congrArg Int.cast (Int.toNat_of_nonneg hfl0)
      have hlow : ((⌊lag0 / T⌋ : ℤ) : ℚ) * T ≤ lag0 := by
        rw [← le_div_iff₀ hT]
        exact Int.floor_le _
      have hhigh : lag0 < (((⌊lag0 / T⌋ : ℤ) : ℚ) + 1) * T := by
        rw [← div_lt_iff₀ hT]
        exact Int.lt_floor_add_one _
      constructor
      · apply div_nonneg _ hT.le
        rw [hcast]
        linarith
      · rw [div_lt_one hT, hcast]
        linarith
    · rw [tickLoopGo_breaker T hT MAX_UPDATES_PER_FRAME MAX_UPDATES_PER_FRAME lag0 0 h0
        (by norm_num [MAX_UPDATES_PER_FRAME]) (by omega) (by omega)]
      norm_num

/-- Witness for C5 (amended): the 50 ms frame of the spec scenario satisfies
the hypothesis and yields an interpolation factor in `[0, 1)`. -/
theorem c5_witness :
    (0 : ℚ) ≤ 0 + 50 ∧
    (0 ≤ (engineUpdateFrame true false 0 50).interp ∧
     (engineUpdateFrame true false 0 50).interp < 1) :=
  ⟨by norm_num, c5_interpolation_bounds true 0 50 (by norm_num)⟩

/-- Claim C2: evaluation of `dispatchQueue` at the failing input — one
callback (id 7) registered for `ontick` and two `ontick` payloads queued
(plus one `whilekeydown` payload).  Both payloads ARE delivered to the
callback in enqueue order, and the level-triggered `whilekeydown` queue is
left unchanged, but the `ontick` queue is NOT cleared: the pruning loop
(`splice(i, 1)` at an increasing index over the shrinking array) removes only
every other entry, so the second payload stays queued, contradicting the
claim that the queue is empty regardless of how many payloads it held. -/
theorem c2_dispatch_queue_not_cleared :
    (dispatchQueue ⟨[], [], [], [], [], [], [], [], [7], []⟩
        ⟨[], [], [], [], [], [⟨.whilekeydown, 0, "a", 0, 0⟩], [], [],
         [⟨.ontick, 0, "", 1, 0⟩, ⟨.ontick, 0, "", 2, 0⟩], []⟩).1
      = [(.ontick, 7, ⟨.ontick, 0, "", 1, 0⟩),
         (.ontick, 7, ⟨.ontick, 0, "", 2, 0⟩)] ∧
    (dispatchQueue ⟨[], [], [], [], [], [], [], [], [7], []⟩
        ⟨[], [], [], [], [], [⟨.whilekeydown, 0, "a", 0, 0⟩], [], [],
         [⟨.ontick, 0, "", 1, 0⟩, ⟨.ontick, 0, "", 2, 0⟩], []⟩).2.whilekeydown
      = [⟨.whilekeydown, 0, "a", 0, 0⟩] ∧
    (dispatchQueue ⟨[], [], [], [], [], [], [], [], [7], []⟩
        ⟨[], [], [], [], [], [⟨.whilekeydown, 0, "a", 0, 0⟩], [], [],
         [⟨.ontick, 0, "", 1, 0⟩, ⟨.ontick, 0, "", 2, 0⟩], []⟩).2.ontick
      = [⟨.ontick, 0, "", 2, 0⟩] ∧
    ((dispatchQueue ⟨[], [], [], [], [], [], [], [], [7], []⟩
        ⟨[], [], [], [], [], [⟨.whilekeydown, 0, "a", 0, 0⟩], [], [],
         [⟨.ontick, 0, "", 1, 0⟩, ⟨.ontick, 0, "", 2, 0⟩], []⟩).2.ontick).length
      = 1 := by
  refine ⟨?_, ?_, ?_, ?_⟩ <;> decide

/-- Claim C3: evaluation of the post-render disposal sweep at the failing
input — a registry holding one scene flagged `isQueuedForDisposal = true`.
The scene is still part of that frame's render pass (render precedes the
sweep), but the sweep's filter predicate
`!(scene.isQueuedForDisposal && this.removeScene(scene))` is always true
(`removeScene` returns `undefined`), so the sweep preserves EVERY registry —
the flagged scene is still registered at the start of the next frame,
contradicting the claim. -/
theorem c3_sweep_keeps_flagged_scene :
    (∀ scenes : List SceneM, disposalSweep scenes = scenes) ∧
    renderPass [⟨"s1", true, true⟩] = [⟨"s1", true, true⟩] ∧
    disposalSweep [⟨"s1", true, true⟩] = [⟨"s1", true, true⟩] ∧
    (disposalSweep [⟨"s1", true, true⟩]).length = 1 := by
  refine ⟨?_, by decide, by decide, by decide⟩
  intro scenes
  induction scenes with
  | nil => rfl
  | cons s ss ih =>
    rw [disposalSweep, List.filter_cons]
    have hpred :
        (!(jsAnd (.jsBool s.isQueuedForDisposal)
            (fun _ => removeSceneResult)).truthy) = true := by
      cases s.isQueuedForDisposal <;> rfl
    rw [if_pos hpred]
    rw [disposalSweep] at ih
    rw [ih]

/-- Claim C4: when the installed engine-pause predicate reports the engine as
not running (it returns `false`), `queueEvent` is a no-op: the whole queue
record — hence the queue of every event type — is unchanged. -/
theorem c4_queue_event_paused_noop (t : EvType) (p : Payload) (q : Queues) :
    queueEvent false t p q = q ∧
    ∀ t2 : EvType, (queueEvent false t p q).get t2 = q.get t2 :=
  ⟨rfl, fun _ => rfl⟩

/-- Claim C6: evaluation of `unregisterEventCallback` at the failing input —
unregistering a callback (id 1) that is NOT registered while another
callback (id 0) is removes that last registered callback
(`indexOf` returns -1 and `splice(-1, 1)` deletes the final element), so the
call is not a no-op, contradicting the claim.  The remaining conjuncts
record the behaviour that does match the claim: on an empty list the call is
a no-op, and a registered callback loses exactly its first matching
reference. -/
theorem c6_unregister_absent_removes_last :
    unregisterEventCallback [0] 1 = [] ∧
    (unregisterEventCallback [0] 1).length = 0 ∧
    unregisterEventCallback [] 1 = [] ∧
    unregisterEventCallback [5, 7, 5] 5 = [7, 5] ∧
    unregisterEventCallback [5, 7, 5] 7 = [5, 5] := by
  refine ⟨?_, ?_, ?_, ?_, ?_⟩ <;> decide

/-- Claim C7: when events are accepted for queuing (the pause predicate
returns `true`), each `onkeydown` / `onmousedown` pushes one synthetic
`whilekeydown` / `whilemousedown` entry (the payload with its `type`
overridden) with no de-duplication, and each `onkeyup` / `onmouseup` removes
ALL queued level-triggered entries with the matching key / button.  The two
closing conjuncts check the spec scenarios: two `onkeydown "a"` events
without an intervening `onkeyup "a"` leave exactly two `whilekeydown`
entries for "a", and one `onkeyup "a"` removes every matching copy. -/
theorem c7_level_trigger_queueing :
    (∀ (q : Queues) (p : Payload),
      (queueEvent true .onkeydown p q).whilekeydown
          = q.whilekeydown ++ [retype p .whilekeydown] ∧
      (queueEvent true .onkeyup p q).whilekeydown
          = q.whilekeydown.filter (fun e => e.key != p.key) ∧
      (queueEvent true .onmousedown p q).whilemousedown
          = q.whilemousedown ++ [retype p .whilemousedown] ∧
      (queueEvent true .onmouseup p q).whilemousedown
          = q.whilemousedown.filter (fun e => e.button != p.button)) ∧
    (queueEvent true .onkeydown ⟨.onkeydown, 0, "a", 0, 0⟩
        (queueEvent true .onkeydown ⟨.onkeydown, 0, "a", 0, 0⟩
          ⟨[], [], [], [], [], [], [], [], [], []⟩)).whilekeydown
      = [⟨.whilekeydown, 0, "a", 0, 0⟩, ⟨.whilekeydown, 0, "a", 0, 0⟩] ∧
    (queueEvent true .onkeyup ⟨.onkeyup, 0, "a", 0, 0⟩
        ⟨[], [], [], [], [],
         [⟨.whilekeydown, 0, "a", 0, 0⟩, ⟨.whilekeydown, 0, "b", 0, 0⟩,
          ⟨.whilekeydown, 0, "a", 0, 0⟩], [], [], [], []⟩).whilekeydown
      = [⟨.whilekeydown, 0, "b", 0, 0⟩] :=
  ⟨fun _ _ => ⟨rfl, rfl, rfl, rfl⟩, by decide, by decide⟩

/-- Claim C8: the animation advance accumulates delta into `deltaSum` and,
once the current frame's duration is reached, subtracts it and advances the
frame index modulo the frame count (wrap-around); consequently, repeated
40 ms advances over an active 3-frame animation of 100 ms per frame leave the
frame index at `(total_elapsed // 100) % 3` after each call. -/
theorem c8_animation_wrap :
    (∀ k : ℕ, animIterate k
        = some ⟨((40 * k % 100 : ℕ) : ℚ), 40 * k / 100 % 3⟩) ∧
    (∀ (frames : List ℚ) (st : AnimState) (delta dur : ℚ),
      frames[st.animationFrame]? = some dur →
      updateAnimation true frames delta st
        = if st.deltaSum + delta ≥ dur then
            some ⟨st.deltaSum + delta - dur, (st.animationFrame + 1) % frames.length⟩
          else some ⟨st.deltaSum + delta, st.animationFrame⟩) := by
  refine ⟨animIterate_closed, ?_⟩
  intro frames st delta dur h
  simp [updateAnimation, h]

/-- Witness for C8: the general advance rule applied to a single 100 ms frame
list at an in-bounds index. -/
theorem c8_witness :
    ([100, 100, 100] : List ℚ)[(⟨0, 0⟩ : AnimState).animationFrame]? = some 100 ∧
    updateAnimation true [100, 100, 100] 100 ⟨0, 0⟩
      = if (⟨0, 0⟩ : AnimState).deltaSum + 100 ≥ 100 then
          some ⟨(⟨0, 0⟩ : AnimState).deltaSum + 100 - 100,
                ((⟨0, 0⟩ : AnimState).animationFrame + 1)
                  % ([100, 100, 100] : List ℚ).length⟩
        else some ⟨(⟨0, 0⟩ : AnimState).deltaSum + 100,
                   (⟨0, 0⟩ : AnimState).animationFrame⟩ :=
  ⟨rfl, c8_animation_wrap.2 [100, 100, 100] ⟨0, 0⟩ 100 100 rfl⟩

/-- Claim C9: a first `Engine.start` on a fresh engine succeeds and sets the
started flag; a second call then fails with the thrown assertion error
"Engine has already been started." — an error, not a no-op. -/
theorem c9_double_start_errors :
    engineStart ⟨false, false, false⟩ = .ok ⟨true, true, false⟩ ∧
    engineStart ⟨true, true, false⟩
      = .error "Engine has already been started." :=
  ⟨rfl, rfl⟩

/-- Claim C10: with drawing enabled, `performDrawCalls` overwrites the
actor's simulated position with the value interpolated between
`lastState.pos` and `pos` by `interp`, componentwise
`lastState.pos + (pos - lastState.pos) * interp`, leaving `vel`, `size` and
`lastState` unchanged; with drawing disabled it changes no actor state. -/
theorem c10_draw_interpolates_pos (interp : ℚ) (a : ActorState) :
    (a.doDraw = true →
      (performDrawCalls interp a).pos.x
          = a.lastPos.x + (a.pos.x - a.lastPos.x) * interp ∧
      (performDrawCalls interp a).pos.y
          = a.lastPos.y + (a.pos.y - a.lastPos.y) * interp ∧
      (performDrawCalls interp a).vel = a.vel ∧
      (performDrawCalls interp a).size = a.size ∧
      (performDrawCalls interp a).lastPos = a.lastPos ∧
      (performDrawCalls interp a).lastVel = a.lastVel) ∧
    (a.doDraw = false → performDrawCalls interp a = a) := by
  constructor
  · intro h
    simp [performDrawCalls, h, Vec2.add, Vec2.sub, Vec2.mult]
  · intro h
    simp [performDrawCalls, h]

/-- Witness for C10: the interpolation rule evaluated on a concrete
draw-enabled actor. -/
theorem c10_witness :
    actorW.doDraw = true ∧
    ((performDrawCalls (1 / 2) actorW).pos.x
        = actorW.lastPos.x + (actorW.pos.x - actorW.lastPos.x) * (1 / 2) ∧
     (performDrawCalls (1 / 2) actorW).pos.y
        = actorW.lastPos.y + (actorW.pos.y - actorW.lastPos.y) * (1 / 2) ∧
     (performDrawCalls (1 / 2) actorW).vel = actorW.vel ∧
     (performDrawCalls (1 / 2) actorW).size = actorW.size ∧
     (performDrawCalls (1 / 2) actorW).lastPos = actorW.lastPos ∧
     (performDrawCalls (1 / 2) actorW).lastVel = actorW.lastVel) :=
  ⟨rfl, (c10_draw_interpolates_pos (1 / 2) actorW).1 rfl⟩

end CanvasEngine
